import Mathlib

/-!
Verification of the retry / rate-limit coordination layer of the
Minecraft-Mod-Translator repository (`src/app/utils/retry_logic.py`).

Modelling conventions:
* durations and wall-clock timestamps are rationals (ℚ);
* the pseudo-random jitter source `2 * random.random() - 1` is passed in as an
  explicit draw `u : ℚ` (the code draws it from `[-1, 1)`);
* `time.time()` is passed in as an explicit `now : ℚ` argument.
-/

/-- State of `RateLimitTracker` (`retry_logic.py`, lines 39-48).
`__init__` sets `consecutive_rate_limits = 0`, `last_rate_limit_time = 0`,
`base_delay = 1.0`, `max_delay = 300.0`. -/
structure RateLimitTracker where
  consecutive_rate_limits : ℕ
  last_rate_limit_time : ℚ
  base_delay : ℚ
  max_delay : ℚ
deriving DecidableEq

/-- `RateLimitTracker.__init__` (lines 44-48). -/
def RateLimitTracker.init : RateLimitTracker := ⟨0, 0, 1, 300⟩

/-- `RateLimitTracker.calculate_delay` (lines 63-81), with the jitter draw
`u = 2 * random.random() - 1` made explicit. -/
def RateLimitTracker.calculate_delay (t : RateLimitTracker) (u : ℚ) : ℚ :=
  if t.consecutive_rate_limits = 0 then 0
  else
    let delay := min (t.base_delay * 2 ^ (t.consecutive_rate_limits - 1)) t.max_delay
    let jitter := delay * (1 / 4) * u
    max 0 (delay + jitter)

/-- `RateLimitTracker.record_rate_limit` (lines 83-86); `now` is `time.time()`. -/
def RateLimitTracker.record_rate_limit (t : RateLimitTracker) (now : ℚ) : RateLimitTracker :=
  ⟨t.consecutive_rate_limits + 1, now, t.base_delay, t.max_delay⟩

/-- `RateLimitTracker.record_success` (lines 88-90). -/
def RateLimitTracker.record_success (t : RateLimitTracker) : RateLimitTracker :=
  ⟨0, t.last_rate_limit_time, t.base_delay, t.max_delay⟩

/-- `RateLimitTracker.should_apply_preventive_delay` (lines 92-101); `now` is
`time.time()`. -/
def RateLimitTracker.should_apply_preventive_delay (t : RateLimitTracker) (now : ℚ) : Bool :=
  if t.consecutive_rate_limits = 0 then false
  else decide (now - t.last_rate_limit_time < 300)

/-- `RateLimitTracker.get_preventive_delay` (lines 103-112); `u` is the jitter
draw consumed by the inner `calculate_delay` call. -/
def RateLimitTracker.get_preventive_delay (t : RateLimitTracker) (now u : ℚ) : ℚ :=
  if t.should_apply_preventive_delay now then min (t.calculate_delay u / 4) 10
  else 0

/-! Basic helper lemmas about the tracker. -/

theorem calculate_delay_nonneg (t : RateLimitTracker) (u : ℚ) :
    0 ≤ t.calculate_delay u := by
  unfold RateLimitTracker.calculate_delay
  split
  · exact le_refl 0
  · exact le_max_left 0 _

theorem calculate_delay_pos (t : RateLimitTracker) (u : ℚ)
    (hc : t.consecutive_rate_limits ≠ 0) (hb : 0 < t.base_delay) (hM : 0 < t.max_delay)
    (hu : -1 ≤ u) : 0 < t.calculate_delay u := by
  unfold RateLimitTracker.calculate_delay
  rw [if_neg hc]
  have hD : 0 < min (t.base_delay * 2 ^ (t.consecutive_rate_limits - 1)) t.max_delay := by
    apply lt_min _ hM
    positivity
  apply lt_max_iff.mpr
  right
  set D := min (t.base_delay * 2 ^ (t.consecutive_rate_limits - 1)) t.max_delay with hDdef
  nlinarith [hD, hu]

/-- Claim C2: `calculate_delay` returns exactly 0 when `consecutive_rate_limits = 0`
(for every jitter draw), and with a zero jitter draw it returns exactly
`min (base_delay * 2 ^ (n - 1)) max_delay` when `consecutive_rate_limits = n ≥ 1`. -/
theorem calculate_delay_base_cases (t : RateLimitTracker) (u : ℚ) (n : ℕ) :
    (t.consecutive_rate_limits = 0 → t.calculate_delay u = 0) ∧
    (t.consecutive_rate_limits = n → 1 ≤ n → 0 < t.base_delay → 0 < t.max_delay →
      t.calculate_delay 0 = min (t.base_delay * 2 ^ (n - 1)) t.max_delay) := by
  constructor
  · intro h
    unfold RateLimitTracker.calculate_delay
    rw [if_pos h]
  · intro hn h1 hb hM
    have hne : t.consecutive_rate_limits ≠ 0 := by omega
    have hD : 0 < min (t.base_delay * 2 ^ (t.consecutive_rate_limits - 1)) t.max_delay := by
      apply lt_min _ hM
      positivity
    unfold RateLimitTracker.calculate_delay
    rw [if_neg hne]
    simp only [mul_zero, add_zero]
    rw [max_eq_right hD.le, hn]

/-- Witness for C2 at a concrete tracker with 3 consecutive rate limits. -/
theorem calculate_delay_base_cases_check :
    RateLimitTracker.calculate_delay ⟨3, 0, 1, 300⟩ 0 = min ((1 : ℚ) * 2 ^ (3 - 1)) 300 :=
  (calculate_delay_base_cases ⟨3, 0, 1, 300⟩ 0 3).2 rfl (by norm_num) (by norm_num) (by norm_num)

/-- Claim C3: for a fixed jitter draw `u ∈ [-1, 1]`, `calculate_delay` is monotone
non-decreasing in `consecutive_rate_limits`, and whenever
`consecutive_rate_limits ≥ 1` the result never exceeds `max_delay * 1.25`. -/
theorem calculate_delay_monotone_capped (t : RateLimitTracker) (u : ℚ) (m n : ℕ) :
    (-1 ≤ u → u ≤ 1 → 0 ≤ t.base_delay → m ≤ n →
      RateLimitTracker.calculate_delay ⟨m, t.last_rate_limit_time, t.base_delay, t.max_delay⟩ u ≤
      RateLimitTracker.calculate_delay ⟨n, t.last_rate_limit_time, t.base_delay, t.max_delay⟩ u) ∧
    (-1 ≤ u → u ≤ 1 → 0 ≤ t.base_delay → 0 ≤ t.max_delay → 1 ≤ t.consecutive_rate_limits →
      t.calculate_delay u ≤ t.max_delay * (5 / 4)) := by
  constructor
  · intro hul huu hb hmn
    rcases Nat.eq_zero_or_pos m with hm0 | hm1
    · subst hm0
      calc RateLimitTracker.calculate_delay ⟨0, t.last_rate_limit_time, t.base_delay, t.max_delay⟩ u
          = 0 := by unfold RateLimitTracker.calculate_delay; rw [if_pos rfl]
        _ ≤ _ := calculate_delay_nonneg _ u
    · have hm2 : (⟨m, t.last_rate_limit_time, t.base_delay, t.max_delay⟩ :
          RateLimitTracker).consecutive_rate_limits ≠ 0 := by
        show m ≠ 0
        omega
      have hn2 : (⟨n, t.last_rate_limit_time, t.base_delay, t.max_delay⟩ :
          RateLimitTracker).consecutive_rate_limits ≠ 0 := by
        show n ≠ 0
        omega
      unfold RateLimitTracker.calculate_delay
      rw [if_neg hm2, if_neg hn2]
      simp only
      set Dm := min (t.base_delay * 2 ^ (m - 1)) t.max_delay with hDm
      set Dn := min (t.base_delay * 2 ^ (n - 1)) t.max_delay with hDn
      have hDmn : Dm ≤ Dn := by
        apply min_le_min _ (le_refl t.max_delay)
        exact mul_le_mul_of_nonneg_left (pow_le_pow_right₀ (by norm_num) (by omega)) hb
      apply max_le_max (le_refl 0)
      nlinarith [mul_nonneg (sub_nonneg.mpr hDmn) (by linarith : (0 : ℚ) ≤ 1 + (1 / 4) * u)]
  · intro hul huu hb hM hc
    have hne : t.consecutive_rate_limits ≠ 0 := by omega
    unfold RateLimitTracker.calculate_delay
    rw [if_neg hne]
    simp only
    set D := min (t.base_delay * 2 ^ (t.consecutive_rate_limits - 1)) t.max_delay with hD
    have hD0 : 0 ≤ D := le_min (by positivity) hM
    have hDM : D ≤ t.max_delay := min_le_right _ _
    apply max_le (by nlinarith)
    nlinarith [mul_le_mul_of_nonneg_left huu (by linarith : (0 : ℚ) ≤ D * (1 / 4))]

/-- Witness for C3 at concrete counts 1 ≤ 2 and a concrete capped tracker. -/
theorem calculate_delay_monotone_capped_check :
    (RateLimitTracker.calculate_delay ⟨1, 0, 1, 300⟩ 0 ≤
      RateLimitTracker.calculate_delay ⟨2, 0, 1, 300⟩ 0) ∧
    RateLimitTracker.calculate_delay ⟨2, 0, 1, 300⟩ 0 ≤ 300 * (5 / 4) :=
  ⟨(calculate_delay_monotone_capped ⟨1, 0, 1, 300⟩ 0 1 2).1
      (by norm_num) (by norm_num) (by norm_num) (by norm_num),
   (calculate_delay_monotone_capped ⟨2, 0, 1, 300⟩ 0 1 2).2
      (by norm_num) (by norm_num) (by norm_num) (by norm_num) (by norm_num)⟩

/-- Claim C4: `should_apply_preventive_delay` is true iff `consecutive_rate_limits > 0`
and strictly less than 300 time-units elapsed since `last_rate_limit_time`; it is
false right after construction, false right after `record_success`, true right
after `record_rate_limit` (at the same clock instant), and false once 300 or more
time-units have elapsed. -/
theorem should_apply_preventive_delay_char (t s : RateLimitTracker) (now tf : ℚ) :
    (t.should_apply_preventive_delay now = true ↔
      0 < t.consecutive_rate_limits ∧ now - t.last_rate_limit_time < 300) ∧
    RateLimitTracker.init.should_apply_preventive_delay now = false ∧
    s.record_success.should_apply_preventive_delay now = false ∧
    (s.record_rate_limit tf).should_apply_preventive_delay tf = true ∧
    (300 ≤ now - t.last_rate_limit_time → t.should_apply_preventive_delay now = false) := by
  refine ⟨?_, ?_, ?_, ?_, ?_⟩
  · unfold RateLimitTracker.should_apply_preventive_delay
    rcases Nat.eq_zero_or_pos t.consecutive_rate_limits with h0 | hpos
    · rw [if_pos h0]
      simp [h0]
    · rw [if_neg (by omega)]
      simp [hpos]
  · rfl
  · rfl
  · unfold RateLimitTracker.should_apply_preventive_delay RateLimitTracker.record_rate_limit
    simp
  · intro h
    unfold RateLimitTracker.should_apply_preventive_delay
    rcases Nat.eq_zero_or_pos t.consecutive_rate_limits with h0 | hpos
    · rw [if_pos h0]
    · rw [if_neg (by omega)]
      simp only [decide_eq_false_iff_not, not_lt]
      exact h

/-- Witness for C4: concrete tracker 300 time-units after its only failure. -/
theorem should_apply_preventive_delay_char_check :
    RateLimitTracker.should_apply_preventive_delay ⟨1, 200, 1, 300⟩ 500 = false :=
  (should_apply_preventive_delay_char ⟨1, 200, 1, 300⟩ RateLimitTracker.init 500 0).2.2.2.2
    (by norm_num)

/-- Claim C5: `get_preventive_delay` returns 0 when no preventive delay applies,
otherwise `min (calculate_delay / 4) 10`, and in every case at most 10. -/
theorem get_preventive_delay_cap (t : RateLimitTracker) (now u : ℚ) :
    (t.should_apply_preventive_delay now = false → t.get_preventive_delay now u = 0) ∧
    (t.should_apply_preventive_delay now = true →
      t.get_preventive_delay now u = min (t.calculate_delay u / 4) 10) ∧
    t.get_preventive_delay now u ≤ 10 := by
  refine ⟨?_, ?_, ?_⟩
  · intro h
    unfold RateLimitTracker.get_preventive_delay
    rw [h]
    rfl
  · intro h
    unfold RateLimitTracker.get_preventive_delay
    rw [h]
    rfl
  · unfold RateLimitTracker.get_preventive_delay
    split
    · exact min_le_right _ _
    · norm_num

/-- Witness for C5 at a fresh tracker (no preventive delay applies). -/
theorem get_preventive_delay_cap_check :
    RateLimitTracker.get_preventive_delay RateLimitTracker.init 0 0 = 0 :=
  (get_preventive_delay_cap RateLimitTracker.init 0 0).1 rfl

/-- Claim C8: `record_success` resets `consecutive_rate_limits` to 0, leaves
`last_rate_limit_time`, `base_delay` and `max_delay` unchanged, and a subsequent
`calculate_delay` returns 0 for every jitter draw. -/
theorem record_success_resets (t : RateLimitTracker) (u : ℚ) :
    t.record_success.consecutive_rate_limits = 0 ∧
    t.record_success.last_rate_limit_time = t.last_rate_limit_time ∧
    t.record_success.base_delay = t.base_delay ∧
    t.record_success.max_delay = t.max_delay ∧
    t.record_success.calculate_delay u = 0 := by
  refine ⟨rfl, rfl, rfl, rfl, ?_⟩
  have h0 : t.record_success.consecutive_rate_limits = 0 := rfl
  unfold RateLimitTracker.calculate_delay
  rw [if_pos h0]

/-! The retry executor: `retry_with_exponential_backoff` (lines 115-188). -/

/-- Static configuration of `retry_with_exponential_backoff` (lines 115-121).
`eligible e` embeds the `except exceptions` membership test (`isinstance`), and
`isRateLimitError e` embeds `tracker.is_rate_limit_error(e)` (lines 50-61),
which inspects only the error value itself, never the tracker's mutable state. -/
structure RetryConfig (ε : Type) where
  max_retries : ℕ
  base_delay : ℚ
  max_delay : ℚ
  eligible : ε → Bool
  isRateLimitError : ε → Bool

/-- External interactions of one invocation of the wrapped function:
`op a` is the attempt-`a` call of `func` (`Except.error` models a raised error),
`retryU a` the jitter draw consumed when computing the retry delay after
attempt `a`, `failAt a` the value of `time.time()` inside `record_rate_limit`
at attempt `a`, `preventiveNow` the clock at the attempt-0 preventive check,
and `preventiveU` the jitter draw consumed by `get_preventive_delay`. -/
structure RetryEnv (α ε : Type) where
  op : ℕ → Except ε α
  retryU : ℕ → ℚ
  failAt : ℕ → ℚ
  preventiveNow : ℚ
  preventiveU : ℚ

/-- Observable outcome of one wrapper invocation: the returned value or raised
error, the chronological list of strictly positive sleep durations, the number
of `func` calls made, and the final tracker state. -/
structure RunOutcome (α ε : Type) where
  result : Except ε α
  sleeps : List ℚ
  attempts : ℕ
  tracker : RateLimitTracker

/-- The non-rate-limit backoff of lines 171-175:
`min (base_delay * 2 ^ attempt) max_delay` plus ±10% jitter, clamped at 0. -/
def plainBackoffDelay (base_delay max_delay : ℚ) (attempt : ℕ) (u : ℚ) : ℚ :=
  max 0 (min (base_delay * 2 ^ attempt) max_delay
    + min (base_delay * 2 ^ attempt) max_delay * (1 / 10) * u)

/-- `if delay > 0: time.sleep(delay)` (lines 180-182 and 143-145): a sleep is
recorded only when the delay is strictly positive. -/
def appendIfPos (sleeps : List ℚ) (delay : ℚ) : List ℚ :=
  if 0 < delay then sleeps ++ [delay] else sleeps

/-- The attempt-0 preventive sleep of lines 141-145. -/
def preventivePad {α ε : Type} (env : RetryEnv α ε) (tracker : RateLimitTracker)
    (attempt : ℕ) (sleeps : List ℚ) : List ℚ :=
  if attempt = 0 ∧ tracker.should_apply_preventive_delay env.preventiveNow then
    appendIfPos sleeps (tracker.get_preventive_delay env.preventiveNow env.preventiveU)
  else sleeps

/-- The `for attempt in range(max_retries + 1)` loop of lines 138-185; `fuel`
is the number of remaining iterations (`max_retries + 1 - attempt`).  `none`
models falling out of the loop body, which is unreachable from `retryRun`. -/
def retryLoop {α ε : Type} (cfg : RetryConfig ε) (env : RetryEnv α ε) :
    ℕ → ℕ → RateLimitTracker → List ℚ → Option (RunOutcome α ε)
  | 0, _, _, _ => none
  | fuel + 1, attempt, tracker, sleeps =>
    let sleeps0 := preventivePad env tracker attempt sleeps
    match env.op attempt with
    | Except.ok v => some ⟨Except.ok v, sleeps0, attempt + 1, tracker.record_success⟩
    | Except.error e =>
      if cfg.eligible e then
        let tracker1 := if cfg.isRateLimitError e
          then tracker.record_rate_limit (env.failAt attempt) else tracker
        if cfg.max_retries ≤ attempt then
          some ⟨Except.error e, sleeps0, attempt + 1, tracker1⟩
        else
          retryLoop cfg env fuel (attempt + 1) tracker1
            (appendIfPos sleeps0
              (if cfg.isRateLimitError e then tracker1.calculate_delay (env.retryU attempt)
               else plainBackoffDelay cfg.base_delay cfg.max_delay attempt (env.retryU attempt)))
      else
        some ⟨Except.error e, sleeps0, attempt + 1, tracker⟩

/-- `wrapper` (lines 134-185): `tracker = rate_limit_tracker or RateLimitTracker()`
followed by the retry loop starting at attempt 0 with no sleeps performed yet. -/
def retryRun {α ε : Type} (cfg : RetryConfig ε) (env : RetryEnv α ε)
    (rate_limit_tracker : Option RateLimitTracker) : Option (RunOutcome α ε) :=
  retryLoop cfg env (cfg.max_retries + 1) 0 (rate_limit_tracker.getD RateLimitTracker.init) []

theorem appendIfPos_of_pos (sleeps : List ℚ) (delay : ℚ) (h : 0 < delay) :
    appendIfPos sleeps delay = sleeps ++ [delay] := by
  unfold appendIfPos
  rw [if_pos h]

theorem preventivePad_of_no {α ε : Type} (env : RetryEnv α ε) (tracker : RateLimitTracker)
    (attempt : ℕ) (sleeps : List ℚ)
    (h : attempt = 0 → tracker.should_apply_preventive_delay env.preventiveNow = false) :
    preventivePad env tracker attempt sleeps = sleeps := by
  unfold preventivePad
  rw [if_neg]
  rintro ⟨h0, hs⟩
  rw [h h0] at hs
  exact Bool.false_ne_true hs

theorem retryLoop_uneligible {α ε : Type} (cfg : RetryConfig ε) (env : RetryEnv α ε)
    (fuel attempt : ℕ) (tracker : RateLimitTracker) (sleeps : List ℚ) (e : ε)
    (hop : env.op attempt = Except.error e) (hel : cfg.eligible e = false) :
    retryLoop cfg env (fuel + 1) attempt tracker sleeps =
      some ⟨Except.error e, preventivePad env tracker attempt sleeps, attempt + 1, tracker⟩ := by
  simp only [retryLoop, hop, hel]
  rfl

theorem retryLoop_rl_break {α ε : Type} (cfg : RetryConfig ε) (env : RetryEnv α ε)
    (fuel attempt : ℕ) (tracker : RateLimitTracker) (sleeps : List ℚ) (e : ε)
    (hop : env.op attempt = Except.error e) (hel : cfg.eligible e = true)
    (hrl : cfg.isRateLimitError e = true) (hge : cfg.max_retries ≤ attempt) :
    retryLoop cfg env (fuel + 1) attempt tracker sleeps =
      some ⟨Except.error e, preventivePad env tracker attempt sleeps, attempt + 1,
        tracker.record_rate_limit (env.failAt attempt)⟩ := by
  simp only [retryLoop, hop, hel, hrl, if_true, if_pos hge]

theorem retryLoop_rl_step {α ε : Type} (cfg : RetryConfig ε) (env : RetryEnv α ε)
    (fuel attempt : ℕ) (tracker : RateLimitTracker) (sleeps : List ℚ) (e : ε)
    (hop : env.op attempt = Except.error e) (hel : cfg.eligible e = true)
    (hrl : cfg.isRateLimitError e = true) (hlt : attempt < cfg.max_retries) :
    retryLoop cfg env (fuel + 1) attempt tracker sleeps =
      retryLoop cfg env fuel (attempt + 1) (tracker.record_rate_limit (env.failAt attempt))
        (appendIfPos (preventivePad env tracker attempt sleeps)
          ((tracker.record_rate_limit (env.failAt attempt)).calculate_delay
            (env.retryU attempt))) := by
  simp only [retryLoop, hop, hel, hrl, if_true, if_neg (not_le.mpr hlt)]

theorem retryLoop_plain_step {α ε : Type} (cfg : RetryConfig ε) (env : RetryEnv α ε)
    (fuel attempt : ℕ) (tracker : RateLimitTracker) (sleeps : List ℚ) (e : ε)
    (hop : env.op attempt = Except.error e) (hel : cfg.eligible e = true)
    (hrl : cfg.isRateLimitError e = false) (hlt : attempt < cfg.max_retries) :
    retryLoop cfg env (fuel + 1) attempt tracker sleeps =
      retryLoop cfg env fuel (attempt + 1) tracker
        (appendIfPos (preventivePad env tracker attempt sleeps)
          (plainBackoffDelay cfg.base_delay cfg.max_delay attempt (env.retryU attempt))) := by
  simp only [retryLoop, hop, hel, hrl, if_true, Bool.false_eq_true, if_false,
    if_neg (not_le.mpr hlt)]

/-- Claim C7: an error whose kind is outside the eligible exception set
propagates from the very first attempt with zero retries and an unchanged
tracker; started from a tracker with zero consecutive rate limits (fresh
construction, the `None` default, or right after a success) zero sleeps occur. -/
theorem retry_noneligible_propagates {α ε : Type} (cfg : RetryConfig ε) (env : RetryEnv α ε)
    (rlt : Option RateLimitTracker) (e : ε)
    (hop : env.op 0 = Except.error e) (hel : cfg.eligible e = false)
    (hc0 : (rlt.getD RateLimitTracker.init).consecutive_rate_limits = 0) :
    retryRun cfg env rlt = some ⟨Except.error e, [], 1, rlt.getD RateLimitTracker.init⟩ := by
  have hsp : (rlt.getD RateLimitTracker.init).should_apply_preventive_delay
      env.preventiveNow = false := by
    unfold RateLimitTracker.should_apply_preventive_delay
    rw [if_pos hc0]
  unfold retryRun
  rw [retryLoop_uneligible cfg env cfg.max_retries 0 (rlt.getD RateLimitTracker.init) [] e hop hel,
    preventivePad_of_no env _ 0 [] (fun _ => hsp)]

/-- Witness for C7: a concrete non-eligible error with the default tracker. -/
theorem retry_noneligible_propagates_check :
    retryRun (⟨3, 1, 60, fun _ => false, fun _ => false⟩ : RetryConfig ℕ)
      (⟨fun _ => Except.error 7, fun _ => 0, fun _ => 0, 0, 0⟩ : RetryEnv ℕ ℕ) none =
      some ⟨Except.error 7, [], 1, RateLimitTracker.init⟩ :=
  retry_noneligible_propagates _ _ none 7 rfl rfl rfl

/-- Claim C1: with `max_retries = 2` and a tracker starting at zero consecutive
rate limits, an operation raising an eligible, rate-limit-classified error on
every attempt makes exactly 3 attempts, sleeps exactly twice (after attempts 0
and 1), re-raises the attempt-2 error object unchanged (no wrapping), and
leaves the tracker with 3 consecutive rate limits. -/
theorem retry_exhaustion_rate_limited {α ε : Type} (cfg : RetryConfig ε) (env : RetryEnv α ε)
    (t0 : RateLimitTracker) (es : ℕ → ε)
    (hop : ∀ a, env.op a = Except.error (es a))
    (hel : ∀ a, cfg.eligible (es a) = true)
    (hrl : ∀ a, cfg.isRateLimitError (es a) = true)
    (hmr : cfg.max_retries = 2)
    (hc0 : t0.consecutive_rate_limits = 0)
    (hb : 0 < t0.base_delay) (hM : 0 < t0.max_delay)
    (hu : ∀ a, -1 ≤ env.retryU a) :
    ∃ sl tr, retryRun cfg env (some t0) = some ⟨Except.error (es 2), sl, 3, tr⟩ ∧
      sl.length = 2 ∧ tr.consecutive_rate_limits = 3 := by
  have hsp : t0.should_apply_preventive_delay env.preventiveNow = false := by
    unfold RateLimitTracker.should_apply_preventive_delay
    rw [if_pos hc0]
  have hd0 : 0 < (t0.record_rate_limit (env.failAt 0)).calculate_delay (env.retryU 0) :=
    calculate_delay_pos _ _ (by simp [RateLimitTracker.record_rate_limit]) hb hM (hu 0)
  have hd1 : 0 < ((t0.record_rate_limit (env.failAt 0)).record_rate_limit
      (env.failAt 1)).calculate_delay (env.retryU 1) :=
    calculate_delay_pos _ _ (by simp [RateLimitTracker.record_rate_limit]) hb hM (hu 1)
  have hmr3 : cfg.max_retries = 0 + 1 + 1 := by omega
  unfold retryRun
  rw [Option.getD_some, hmr3]
  rw [retryLoop_rl_step cfg env (0 + 1 + 1) 0 t0 [] (es 0) (hop 0) (hel 0) (hrl 0) (by omega)]
  rw [preventivePad_of_no env t0 0 [] (fun _ => hsp), appendIfPos_of_pos [] _ hd0,
    List.nil_append]
  rw [retryLoop_rl_step cfg env (0 + 1) 1 _ _ (es 1) (hop 1) (hel 1) (hrl 1) (by omega)]
  rw [preventivePad_of_no env _ 1 _ (fun h => absurd h one_ne_zero),
    appendIfPos_of_pos _ _ hd1]
  rw [retryLoop_rl_break cfg env 0 2 _ _ (es 2) (hop 2) (hel 2) (hrl 2) (by omega)]
  rw [preventivePad_of_no env _ 2 _ (fun h => absurd h (by omega))]
  refine ⟨_, _, rfl, rfl, ?_⟩
  simp [RateLimitTracker.record_rate_limit]
  omega

/-- Witness for C1 at a fully concrete configuration and environment. -/
theorem retry_exhaustion_rate_limited_check :
    ∃ sl tr, retryRun (⟨2, 1, 60, fun _ => true, fun _ => true⟩ : RetryConfig ℕ)
      (⟨fun _ => Except.error 9, fun _ => 0, fun _ => 0, 0, 0⟩ : RetryEnv ℕ ℕ)
      (some RateLimitTracker.init) = some ⟨Except.error 9, sl, 3, tr⟩ ∧
      sl.length = 2 ∧ tr.consecutive_rate_limits = 3 :=
  retry_exhaustion_rate_limited _ _ RateLimitTracker.init (fun _ => 9)
    (fun _ => rfl) (fun _ => rfl) (fun _ => rfl) rfl rfl
    (by norm_num [RateLimitTracker.init]) (by norm_num [RateLimitTracker.init])
    (fun _ => by norm_num)

/-- Claim C6: an eligible failure not classified as rate-limiting, at attempt
`a < max_retries`, makes the wrapper sleep `min (base_delay * 2 ^ a) max_delay`
perturbed by at most ±10% jitter and clamped at 0 — computed without consulting
the service tracker — and passes the tracker on unchanged. -/
theorem retry_plain_backoff_behavior {α ε : Type} (cfg : RetryConfig ε) (env : RetryEnv α ε)
    (fuel a : ℕ) (t : RateLimitTracker) (s : List ℚ) (e : ε)
    (hop : env.op a = Except.error e) (hel : cfg.eligible e = true)
    (hrl : cfg.isRateLimitError e = false) (hlt : a < cfg.max_retries) :
    retryLoop cfg env (fuel + 1) a t s =
      retryLoop cfg env fuel (a + 1) t
        (appendIfPos (preventivePad env t a s)
          (plainBackoffDelay cfg.base_delay cfg.max_delay a (env.retryU a))) ∧
    (-1 ≤ env.retryU a → env.retryU a ≤ 1 → 0 ≤ cfg.base_delay → 0 ≤ cfg.max_delay →
      min (cfg.base_delay * 2 ^ a) cfg.max_delay * (9 / 10) ≤
        plainBackoffDelay cfg.base_delay cfg.max_delay a (env.retryU a) ∧
      plainBackoffDelay cfg.base_delay cfg.max_delay a (env.retryU a) ≤
        min (cfg.base_delay * 2 ^ a) cfg.max_delay * (11 / 10)) := by
  refine ⟨retryLoop_plain_step cfg env fuel a t s e hop hel hrl hlt, ?_⟩
  intro hul huu hb hM
  unfold plainBackoffDelay
  set D := min (cfg.base_delay * 2 ^ a) cfg.max_delay with hD
  have hD0 : 0 ≤ D := le_min (by positivity) hM
  constructor
  · apply le_trans _ (le_max_right 0 (D + D * (1 / 10) * env.retryU a))
    nlinarith [mul_le_mul_of_nonneg_left hul (by linarith : (0 : ℚ) ≤ D * (1 / 10))]
  · apply max_le (by nlinarith)
    nlinarith [mul_le_mul_of_nonneg_left huu (by linarith : (0 : ℚ) ≤ D * (1 / 10))]

/-- Witness for C6: concrete plain-backoff step bounds at attempt 0. -/
theorem retry_plain_backoff_behavior_check :
    min ((1 : ℚ) * 2 ^ 0) 60 * (9 / 10) ≤ plainBackoffDelay 1 60 0 0 ∧
    plainBackoffDelay 1 60 0 0 ≤ min ((1 : ℚ) * 2 ^ 0) 60 * (11 / 10) :=
  (retry_plain_backoff_behavior (⟨3, 1, 60, fun _ => true, fun _ => false⟩ : RetryConfig ℕ)
    (⟨fun _ => Except.error 5, fun _ => 0, fun _ => 0, 0, 0⟩ : RetryEnv ℕ ℕ)
    3 0 RateLimitTracker.init [] 5 rfl rfl rfl (by decide)).2
    (by norm_num) (by norm_num) (by norm_num) (by norm_num)

/-- Claim C10: with `rate_limit_tracker = None` every invocation starts from a
brand-new `RateLimitTracker()` — so no failure history can persist across
invocations — whose consecutive count is 0, for which no preventive delay
applies at any clock value, whose preventive delay is 0, and for which the
attempt-0 preventive sleep pads nothing. -/
theorem retry_default_tracker_fresh {α ε : Type} (cfg : RetryConfig ε) (env : RetryEnv α ε) :
    retryRun cfg env none =
      retryLoop cfg env (cfg.max_retries + 1) 0 RateLimitTracker.init [] ∧
    RateLimitTracker.init.consecutive_rate_limits = 0 ∧
    (∀ now : ℚ, RateLimitTracker.init.should_apply_preventive_delay now = false) ∧
    (∀ now u : ℚ, RateLimitTracker.init.get_preventive_delay now u = 0) ∧
    (∀ sleeps : List ℚ, preventivePad env RateLimitTracker.init 0 sleeps = sleeps) :=
  ⟨rfl, rfl, fun _ => rfl, fun _ _ => rfl,
    fun sleeps => preventivePad_of_no env _ 0 sleeps (fun _ => rfl)⟩

/-! `TranslationRateLimiter` (lines 191-217): per-service shared trackers. -/

/-- Python `str.lower()` applied character-wise (ASCII-compatible, as in
`service.lower()` on line 202/204). -/
def lowerStr (s : String) : String := ⟨s.data.map Char.toLower⟩

/-- Object identity of the tracker handed out by
`TranslationRateLimiter.get_tracker` (lines 200-208): one of the two shared
instance attributes, or a fresh `RateLimitTracker()` allocation, numbered by
allocation order. -/
inductive TrackerRef
  | googleShared
  | openaiShared
  | fresh (n : ℕ)
deriving DecidableEq

/-- `TranslationRateLimiter.get_tracker` (lines 200-208) at the level of object
identity: `alloc` is the allocation counter that distinguishes successive
`RateLimitTracker()` constructions on line 208. -/
def get_tracker (service : String) (alloc : ℕ) : TrackerRef × ℕ :=
  if lowerStr service = "openai" then (TrackerRef.openaiShared, alloc)
  else if lowerStr service = "google" then (TrackerRef.googleShared, alloc)
  else (TrackerRef.fresh alloc, alloc + 1)

/-- A sequence of `get_tracker` calls against one registry instance, returning
the handed-out tracker identities in call order. -/
def lookupSeq : List String → ℕ → List TrackerRef
  | [], _ => []
  | s :: rest, alloc => (get_tracker s alloc).1 :: lookupSeq rest (get_tracker s alloc).2

theorem lookupSeq_length (names : List String) (n : ℕ) :
    (lookupSeq names n).length = names.length := by
  induction names generalizing n with
  | nil => rfl
  | cons s rest ih => simp [lookupSeq, ih]

theorem get_tracker_alloc_le (s : String) (n : ℕ) : n ≤ (get_tracker s n).2 := by
  unfold get_tracker
  by_cases hA : lowerStr s = "openai"
  · simp [hA]
  · by_cases hB : lowerStr s = "google"
    · simp [hA, hB]
    · simp [hA, hB]

theorem fresh_mem_ge (names : List String) : ∀ (n k : ℕ),
    TrackerRef.fresh k ∈ lookupSeq names n → n ≤ k := by
  induction names with
  | nil =>
    intro n k h
    simp [lookupSeq] at h
  | cons s rest ih =>
    intro n k h
    simp only [lookupSeq] at h
    rcases List.mem_cons.mp h with h1 | h2
    · unfold get_tracker at h1
      by_cases hA : lowerStr s = "openai"
      · rw [if_pos hA] at h1
        exact TrackerRef.noConfusion h1
      · by_cases hB : lowerStr s = "google"
        · rw [if_neg hA, if_pos hB] at h1
          exact TrackerRef.noConfusion h1
        · rw [if_neg hA, if_neg hB] at h1
          have : k = n := TrackerRef.fresh.inj h1
          omega
    · have h3 := ih _ _ h2
      have h4 := get_tracker_alloc_le s n
      omega

theorem lookupSeq_classify (names : List String) : ∀ (n i : ℕ), i < names.length →
    ((lowerStr (names.getD i "") = "openai" ↔
        (lookupSeq names n).getD i (TrackerRef.fresh 0) = TrackerRef.openaiShared) ∧
     (lowerStr (names.getD i "") = "google" ↔
        (lookupSeq names n).getD i (TrackerRef.fresh 0) = TrackerRef.googleShared) ∧
     (lowerStr (names.getD i "") ≠ "openai" → lowerStr (names.getD i "") ≠ "google" →
        ∃ k, n ≤ k ∧ (lookupSeq names n).getD i (TrackerRef.fresh 0) = TrackerRef.fresh k)) := by
  induction names with
  | nil =>
    intro n i h
    simp at h
  | cons s rest ih =>
    intro n i h
    cases i with
    | zero =>
      have hd : (lookupSeq (s :: rest) n).getD 0 (TrackerRef.fresh 0) = (get_tracker s n).1 := rfl
      have hh : (s :: rest).getD 0 "" = s := rfl
      rw [hd, hh]
      by_cases hA : lowerStr s = "openai"
      · have h1 : (get_tracker s n).1 = TrackerRef.openaiShared := by
          unfold get_tracker
          rw [if_pos hA]
        rw [h1, hA]
        exact ⟨⟨fun _ => rfl, fun _ => rfl⟩,
          ⟨fun hg => absurd hg (by decide), fun hg => TrackerRef.noConfusion hg⟩,
          fun hno _ => absurd rfl hno⟩
      · by_cases hB : lowerStr s = "google"
        · have h1 : (get_tracker s n).1 = TrackerRef.googleShared := by
            unfold get_tracker
            rw [if_neg hA, if_pos hB]
          rw [h1, hB]
          exact ⟨⟨fun hg => absurd hg (by decide), fun hg => TrackerRef.noConfusion hg⟩,
            ⟨fun _ => rfl, fun _ => rfl⟩,
            fun _ hng => absurd rfl hng⟩
        · have h1 : (get_tracker s n).1 = TrackerRef.fresh n := by
            unfold get_tracker
            rw [if_neg hA, if_neg hB]
          rw [h1]
          exact ⟨⟨fun hg => absurd hg hA, fun hg => TrackerRef.noConfusion hg⟩,
            ⟨fun hg => absurd hg hB, fun hg => TrackerRef.noConfusion hg⟩,
            fun _ _ => ⟨n, le_refl n, rfl⟩⟩
    | succ i' =>
      have hd : (lookupSeq (s :: rest) n).getD (i' + 1) (TrackerRef.fresh 0) =
          (lookupSeq rest (get_tracker s n).2).getD i' (TrackerRef.fresh 0) := rfl
      have hh : (s :: rest).getD (i' + 1) "" = rest.getD i' "" := rfl
      rw [hd, hh]
      have hlen : i' < rest.length := by simpa using h
      obtain ⟨c1, c2, c3⟩ := ih (get_tracker s n).2 i' hlen
      refine ⟨c1, c2, fun hno hng => ?_⟩
      obtain ⟨k, hk1, hk2⟩ := c3 hno hng
      exact ⟨k, le_trans (get_tracker_alloc_le s n) hk1, hk2⟩

theorem lookupSeq_distinct (names : List String) : ∀ (n i j : ℕ), i < j → j < names.length →
    (lookupSeq names n).getD i (TrackerRef.fresh 0) =
      (lookupSeq names n).getD j (TrackerRef.fresh 0) →
    lowerStr (names.getD i "") = "openai" ∨ lowerStr (names.getD i "") = "google" := by
  induction names with
  | nil =>
    intro n i j hij hj h
    simp at hj
  | cons s rest ih =>
    intro n i j hij hj h
    cases i with
    | zero =>
      cases j with
      | zero => omega
      | succ j' =>
        have hd0 : (lookupSeq (s :: rest) n).getD 0 (TrackerRef.fresh 0) =
            (get_tracker s n).1 := rfl
        have hdj : (lookupSeq (s :: rest) n).getD (j' + 1) (TrackerRef.fresh 0) =
            (lookupSeq rest (get_tracker s n).2).getD j' (TrackerRef.fresh 0) := rfl
        rw [hd0, hdj] at h
        have hh : (s :: rest).getD 0 "" = s := rfl
        rw [hh]
        by_cases hA : lowerStr s = "openai"
        · exact Or.inl hA
        · by_cases hB : lowerStr s = "google"
          · exact Or.inr hB
          · exfalso
            have h1 : (get_tracker s n).1 = TrackerRef.fresh n := by
              unfold get_tracker
              rw [if_neg hA, if_neg hB]
            have h2 : (get_tracker s n).2 = n + 1 := by
              unfold get_tracker
              rw [if_neg hA, if_neg hB]
            rw [h1, h2] at h
            have hjlen : j' < rest.length := by simpa using hj
            have hjlen2 : j' < (lookupSeq rest (n + 1)).length := by
              rw [lookupSeq_length]
              exact hjlen
            have hmem : (lookupSeq rest (n + 1)).getD j' (TrackerRef.fresh 0) ∈
                lookupSeq rest (n + 1) := by
              rw [List.getD_eq_getElem _ _ hjlen2]
              exact List.getElem_mem hjlen2
            rw [← h] at hmem
            have := fresh_mem_ge rest (n + 1) n hmem
            omega
    | succ i' =>
      cases j with
      | zero => omega
      | succ j' =>
        have hdi : (lookupSeq (s :: rest) n).getD (i' + 1) (TrackerRef.fresh 0) =
            (lookupSeq rest (get_tracker s n).2).getD i' (TrackerRef.fresh 0) := rfl
        have hdj : (lookupSeq (s :: rest) n).getD (j' + 1) (TrackerRef.fresh 0) =
            (lookupSeq rest (get_tracker s n).2).getD j' (TrackerRef.fresh 0) := rfl
        rw [hdi, hdj] at h
        have hh : (s :: rest).getD (i' + 1) "" = rest.getD i' "" := rfl
        rw [hh]
        exact ih (get_tracker s n).2 i' j' (by omega) (by simpa using hj) h

/-- Claim C9: over any call sequence against one registry, `get_tracker` is
case-insensitive: every "openai" lookup yields the single shared openai tracker
and every "google" lookup the single shared google tracker, while a lookup of
any other name yields a brand-new tracker, distinct from the shared trackers
and from the result of every other lookup in the sequence. -/
theorem get_tracker_sharing (names : List String) (n0 i j : ℕ) :
    (lookupSeq names n0).length = names.length ∧
    (i < names.length →
      (lowerStr (names.getD i "") = "openai" ↔
        (lookupSeq names n0).getD i (TrackerRef.fresh 0) = TrackerRef.openaiShared)) ∧
    (i < names.length →
      (lowerStr (names.getD i "") = "google" ↔
        (lookupSeq names n0).getD i (TrackerRef.fresh 0) = TrackerRef.googleShared)) ∧
    (i < names.length → lowerStr (names.getD i "") ≠ "openai" →
      lowerStr (names.getD i "") ≠ "google" →
      ∃ k, (lookupSeq names n0).getD i (TrackerRef.fresh 0) = TrackerRef.fresh k) ∧
    (i ≠ j → i < names.length → j < names.length →
      lowerStr (names.getD i "") ≠ "openai" → lowerStr (names.getD i "") ≠ "google" →
      (lookupSeq names n0).getD i (TrackerRef.fresh 0) ≠
        (lookupSeq names n0).getD j (TrackerRef.fresh 0)) := by
  refine ⟨lookupSeq_length names n0, ?_, ?_, ?_, ?_⟩
  · intro hi
    exact ((lookupSeq_classify names) n0 i hi).1
  · intro hi
    exact ((lookupSeq_classify names) n0 i hi).2.1
  · intro hi hno hng
    obtain ⟨k, _, hk⟩ := ((lookupSeq_classify names) n0 i hi).2.2 hno hng
    exact ⟨k, hk⟩
  · intro hij hi hj hno hng heq
    rcases Nat.lt_or_ge i j with hlt | hge
    · rcases (lookupSeq_distinct names) n0 i j hlt hj heq with h | h
      · exact hno h
      · exact hng h
    · have hlt2 : j < i := by omega
      rcases (lookupSeq_distinct names) n0 j i hlt2 hi heq.symm with h | h
      · have hjres := ((lookupSeq_classify names) n0 j hj).1.mp h
        rw [← heq] at hjres
        exact hno (((lookupSeq_classify names) n0 i hi).1.mpr hjres)
      · have hjres := ((lookupSeq_classify names) n0 j hj).2.1.mp h
        rw [← heq] at hjres
        exact hng (((lookupSeq_classify names) n0 i hi).2.1.mpr hjres)

/-- Witness for C9: two lookups of the unknown name "bing" return distinct
fresh trackers. -/
theorem get_tracker_sharing_check :
    (lookupSeq ["OpenAI", "Google", "bing", "bing"] 0).getD 2 (TrackerRef.fresh 0) ≠
      (lookupSeq ["OpenAI", "Google", "bing", "bing"] 0).getD 3 (TrackerRef.fresh 0) :=
  (get_tracker_sharing ["OpenAI", "Google", "bing", "bing"] 0 2 3).2.2.2.2
    (by decide) (by decide) (by decide) (by decide) (by decide)
